import Mathlib

/-!
# Verification of the macOS platform window control core

A shallow embedding of `nativeshell/src/shell/platform/macos/window.rs`:
coordinate translation, the per-window event ledger and event synthesis,
the visibility sequencer (ready/show/hide and the show-when-ready poll),
modal-session geometry gating, and popup-menu scheduling.

Conventions of the embedding:

* Native floating-point quantities (coordinates, timestamps, scale factors)
  are modelled as rationals; the `as NSInteger` cast is modelled as exact
  truncation toward zero.
* The `last_event` HashMap keyed by the raw `NSEventType` value is modelled
  as a function `Nat → Option NSEvent`.  `HashMap::values()` iterates in an
  unspecified order, so where that order can matter (the up/down selection
  of the release synthesis, whose synthesized release ties the press's
  event number) the key enumeration is an explicit parameter; for the
  pointer-class scan of the move synthesis, whose selection only seeds the
  synthetic move's event number, the keys are enumerated in ascending
  order.  Rust's `max_by_key` returns the last maximal element; the fold
  below has the same tie-breaking.
* Objective-C calls that mutate the host (ordering windows in and out,
  forwarding an event to `super.sendEvent`, invoking callbacks, …) are
  recorded as explicit effect values.
-/

namespace NativeShell

/-! ## Raw AppKit event-type values (NSEventType) used by the source -/

def NSLeftMouseDown : Nat := 1

def NSLeftMouseUp : Nat := 2

def NSRightMouseDown : Nat := 3

def NSRightMouseUp : Nat := 4

def NSMouseMoved : Nat := 5

def NSMouseEntered : Nat := 8

def NSMouseExited : Nat := 9

/-- The attributes of a native `NSEvent` that the window code reads:
`eventType`, `eventNumber`, the location, `modifierFlags`, `timestamp`
and `windowNumber`. -/
structure NSEvent where
  eventType : Nat
  eventNumber : Int
  location : ℚ × ℚ
  modifierFlags : Nat
  timestamp : ℚ
  windowNumber : Int
  deriving DecidableEq, Repr

/-! ## The event ledger (`last_event : RefCell<HashMap<u64, StrongPtr>>`) -/

/-- The ledger maps a raw event-type value to the most recent event of that
type, exactly like the `HashMap<u64, StrongPtr>` in the source. -/
def Ledger : Type := Nat → Option NSEvent

def emptyLedger : Ledger := fun _ => none

/-- `HashMap::insert`: overwrite the entry for key `k`. -/
def ledgerInsert (led : Ledger) (k : Nat) (e : NSEvent) : Ledger :=
  fun j => if j = k then some e else led j

/-- Enumerate the ledger entries stored under the given keys, in key order.
This models iterating `last_event.borrow().values()` restricted (by the
caller's filter) to the listed event types. -/
def ledgerScan (led : Ledger) (keys : List Nat) : List NSEvent :=
  keys.filterMap led

/-- Rust's `Iterator::max_by_key(|x| x.eventNumber())`: the maximum by
event number, returning the last maximal element on ties. -/
def rustMax (es : List NSEvent) : Option NSEvent :=
  es.foldl
    (fun acc e =>
      match acc with
      | none => some e
      | some m => if m.eventNumber ≤ e.eventNumber then some e else some m)
    none

/-- The value filter of `synthetize_mouse_up_event`: is the event one of
left/right mouse down/up? -/
def isUpDown (e : NSEvent) : Bool :=
  e.eventType == NSLeftMouseDown || e.eventType == NSLeftMouseUp ||
    e.eventType == NSRightMouseDown || e.eventType == NSRightMouseUp

/-- The filter of `synthetize_mouse_move_if_needed`:
`NSLeftMouseDown as i32 ..= NSMouseExited as i32`, i.e. raw values 1–9. -/
def pointerKeys : List Nat := [1, 2, 3, 4, 5, 6, 7, 8, 9]

/-- Every ledger entry stored under key `k` is an event whose raw type is
`k` (the window's `sendEvent:` override inserts with `event_type as u64`
as the key, so this holds for every reachable ledger). -/
def wfLedger (led : Ledger) : Prop :=
  ∀ k e, led k = some e → e.eventType = k

/-! ## Geometry: points, sizes, rectangles, frame/content insets -/

structure Point where
  x : ℚ
  y : ℚ
  deriving DecidableEq, Repr

structure Size where
  width : ℚ
  height : ℚ
  deriving DecidableEq, Repr

/-- A native `NSRect` (origin at the bottom-left, y grows upward). -/
structure RectQ where
  x : ℚ
  y : ℚ
  w : ℚ
  h : ℚ
  deriving DecidableEq, Repr

/-- The window-style dependent decoration insets that AppKit applies when
converting between frame and content rectangles. -/
structure Insets where
  left : ℚ
  right : ℚ
  top : ℚ
  bottom : ℚ
  deriving DecidableEq, Repr

/-- `-[NSWindow frameRectForContentRect:]`: grow the content rectangle by
the decoration insets. -/
def frameRectForContentRect (ins : Insets) (r : RectQ) : RectQ :=
  { x := r.x - ins.left
    y := r.y - ins.bottom
    w := r.w + ins.left + ins.right
    h := r.h + ins.top + ins.bottom }

/-- `-[NSWindow contentRectForFrameRect:]`: shrink the frame rectangle by
the decoration insets. -/
def contentRectForFrameRect (ins : Insets) (r : RectQ) : RectQ :=
  { x := r.x + ins.left
    y := r.y + ins.bottom
    w := r.w - ins.left - ins.right
    h := r.h - ins.top - ins.bottom }

/-- `set_frame_origin`: the logical top-left position is converted with
`y = screen_height - position.y` and applied through
`setFrameTopLeftPoint_`, which keeps the size and places the frame's top
edge at that native y. Returns the resulting window frame. -/
def set_frame_origin (screenH : ℚ) (frame : RectQ) (position : Point) : RectQ :=
  { frame with x := position.x, y := screenH - position.y - frame.h }

/-- `get_frame_origin`: read back the logical top-left position of the
window frame. -/
def get_frame_origin (screenH : ℚ) (frame : RectQ) : Point :=
  { x := frame.x, y := screenH - (frame.y + frame.h) }

/-- `set_content_position`: the content size is read from the content
view, the logical origin is converted with
`y = screen_height - (position.y + content_size.height)`, and the window
frame is set to `frameRectForContentRect_` of that content rectangle.
Returns the resulting window frame. -/
def set_content_position (ins : Insets) (screenH : ℚ) (frame : RectQ)
    (position : Point) : RectQ :=
  let content := contentRectForFrameRect ins frame
  let content_rect : RectQ :=
    { x := position.x
      y := screenH - (position.y + content.h)
      w := content.w
      h := content.h }
  frameRectForContentRect ins content_rect

/-- `get_content_position`: take `contentRectForFrameRect_` of the window
frame and convert its origin back to logical coordinates with
`y = screen_height - (origin.y + size.height)`. -/
def get_content_position (ins : Insets) (screenH : ℚ) (frame : RectQ) : Point :=
  let c := contentRectForFrameRect ins frame
  { x := c.x, y := screenH - (c.y + c.h) }

/-! ## Window state and host environment -/

/-- The mutable interior state of `PlatformWindow` that the verified
operations touch: the optional modal completion callback (identified by a
tag, since only presence and identity are observable), the two visibility
cells, the event ledger and the hover-suppression threshold. -/
structure PlatformWindowState where
  modal_close_callback : Option Nat
  ready_to_show : Bool
  show_when_ready : Bool
  last_event : Ledger
  ignore_enter_leave_until : ℚ

/-- Host-toolkit quantities read during event synthesis:
`mouseLocation` is the result of the class-level current-pointer query
`+[NSEvent mouseLocation]` (screen coordinates) that the cocoa binding
exposes as `NSEvent::mouseLocation(_)`, ignoring its argument;
`currentModifierFlags` is the result of the modifier-flags query made with
a `nil` receiver; `systemUptime` is `-[NSProcessInfo systemUptime]`;
`windowFrame` and `insets` describe the window's current frame and its
frame/content decoration insets. -/
structure HostEnv where
  mouseLocation : ℚ × ℚ
  currentModifierFlags : Nat
  systemUptime : ℚ
  windowFrame : RectQ
  insets : Insets

/-- `is_modal`: a window is modal exactly while a modal close callback is
stored. -/
def is_modal (st : PlatformWindowState) : Bool :=
  st.modal_close_callback.isSome

/-! ## Event synthesis and the `sendEvent:` override -/

/-- `-[NSWindow convertPointFromScreen:]`: screen coordinates to window
base coordinates. -/
def convertPointFromScreen (env : HostEnv) (p : ℚ × ℚ) : ℚ × ℚ :=
  (p.1 - env.windowFrame.x, p.2 - env.windowFrame.y)

/-- The `NSMouseMoved` event fabricated by
`synthetize_mouse_move_if_needed`: current pointer location converted to
window coordinates, current modifier flags, the system uptime as the
timestamp, window number 0, and the last pointer event's number. -/
def mkMouseMove (env : HostEnv) (lastNum : Int) : NSEvent :=
  { eventType := NSMouseMoved
    eventNumber := lastNum
    location := convertPointFromScreen env env.mouseLocation
    modifierFlags := env.currentModifierFlags
    timestamp := env.systemUptime
    windowNumber := 0 }

/-- `synthetize_mouse_move_if_needed`: take the most recent pointer-class
event (raw types 1–9) from the ledger; if one exists and the current
pointer location lies strictly inside the window's content rectangle,
fabricate a mouse-moved event and send it through the window.  The send
goes through the window's own `sendEvent:` override, which records the
event in the ledger (key `NSMouseMoved`) and always forwards it, since a
mouse-moved event is not an enter/exit event; that inner send is inlined
here.  Returns the new state and the list of events injected. -/
def synthetize_mouse_move_if_needed (env : HostEnv) (st : PlatformWindowState) :
    PlatformWindowState × List NSEvent :=
  match rustMax (ledgerScan st.last_event pointerKeys) with
  | none => (st, [])
  | some le =>
    let content_rect := contentRectForFrameRect env.insets env.windowFrame
    let loc := env.mouseLocation
    if loc.1 > content_rect.x ∧ loc.1 < content_rect.x + content_rect.w ∧
        loc.2 > content_rect.y ∧ loc.2 < content_rect.y + content_rect.h then
      let ev := mkMouseMove env le.eventNumber
      ({ st with last_event := ledgerInsert st.last_event ev.eventType ev }, [ev])
    else (st, [])

/-- `should_send_event`: for `NSMouseEntered`/`NSMouseExited` events whose
timestamp predates `ignore_enter_leave_until`, attempt a compensating
mouse-move synthesis and report `false`; otherwise report `true`.
Returns the updated state, the events injected by the synthesis, and the
decision. -/
def should_send_event (env : HostEnv) (st : PlatformWindowState) (e : NSEvent) :
    PlatformWindowState × List NSEvent × Bool :=
  if (e.eventType = NSMouseEntered ∨ e.eventType = NSMouseExited) ∧
      e.timestamp < st.ignore_enter_leave_until then
    let r := synthetize_mouse_move_if_needed env st
    (r.1, r.2, false)
  else (st, [], true)

/-- The window's `sendEvent:` override: if the weak back-reference to the
`PlatformWindow` resolves (`alive`), record the event in the ledger under
its raw type and consult `should_send_event`; otherwise default to
sending.  Returns the new state and the list of events forwarded to the
superclass implementation (normal dispatch), in order. -/
def send_event (alive : Bool) (env : HostEnv) (st : PlatformWindowState)
    (e : NSEvent) : PlatformWindowState × List NSEvent :=
  if alive then
    let st1 := { st with last_event := ledgerInsert st.last_event e.eventType e }
    let r := should_send_event env st1 e
    (r.1, r.2.1 ++ if r.2.2 then [e] else [])
  else (st, [e])

/-- The press/release pairing of `synthetize_mouse_up_event`: a left or
right mouse-down maps to the matching mouse-up; anything else (already a
release) aborts the synthesis. -/
def oppositeType (t : Nat) : Option Nat :=
  if t = NSLeftMouseDown then some NSLeftMouseUp
  else if t = NSRightMouseDown then some NSRightMouseUp
  else none

/-- The release fabricated by `synthetize_mouse_up_event` from press `e`:
the location is the class-level current-pointer query (see `HostEnv`);
modifier flags, timestamp, window number and event number are taken from
`e`. -/
def mkMouseUp (env : HostEnv) (e : NSEvent) (t : Nat) : NSEvent :=
  { eventType := t
    eventNumber := e.eventNumber
    location := env.mouseLocation
    modifierFlags := e.modifierFlags
    timestamp := e.timestamp
    windowNumber := e.windowNumber }

/-- `synthetize_mouse_up_event`: iterate the ledger's stored values —
`HashMap::values()` iterates in an unspecified order, so the key
enumeration `iter` is a parameter — filter to left/right down/up events,
and take the maximum by event number (Rust's `max_by_key` keeps the last
maximal element of the iteration); if it is a press, fabricate the
matching release and send it through the window's normal event path (the
`sendEvent:` override, which records and forwards it).  Returns the new
state and the list of events injected. -/
def synthetize_mouse_up_event (iter : List Nat) (env : HostEnv)
    (st : PlatformWindowState) : PlatformWindowState × List NSEvent :=
  match rustMax ((ledgerScan st.last_event iter).filter isUpDown) with
  | none => (st, [])
  | some e =>
    match oppositeType e.eventType with
    | none => (st, [])
    | some t =>
      let ev := mkMouseUp env e t
      ((send_event true env st ev).1, [ev])

/-! ## The visibility sequencer: `ready_to_show` / `show` / `hide` and
the `show_when_ready` poll

Two views of the same code.  `VisState`/`visStep` is a trace model of the
two boolean cells plus the poll process they launch, used to count
presentation-attempt sequences and to describe `hide`.
`show_when_ready_step` below is the detailed model of one body execution
of `PlatformWindow::show_when_ready`. -/

structure VisState where
  ready_to_show : Bool
  show_when_ready : Bool
  poll_pending : Bool
  presented : Bool
  deriving DecidableEq, Repr

inductive VisEffect where
  | start_show_poll
  | reschedule_poll
  | actually_show
  | visibility_changed (visible : Bool)
  | order_out
  deriving DecidableEq, Repr

inductive VisCmd where
  | ready_to_show
  | show
  | hide (delegateAlive : Bool)
  | poll_tick (alive : Bool) (contentReady : Bool)
  deriving DecidableEq, Repr

/-- The construction-time state: not ready, no show requested. -/
def visInit : VisState :=
  { ready_to_show := false
    show_when_ready := false
    poll_pending := false
    presented := false }

/-- One client call or poll tick.
`ready_to_show` sets the ready cell and launches `show_when_ready` if a
show was requested earlier; `show` launches it if already ready and
otherwise records the request; `hide` orders the window out and notifies
`visibility_changed(false)` when the ready cell is set (whether or not the
window was presented, and without touching a pending poll) and otherwise
merely clears the show request; a poll tick on a pending poll stops
silently when the weak reference is dead, presents and notifies
`visibility_changed(true)` when the rendered content matches, and
reschedules itself otherwise. -/
def visStep (s : VisState) : VisCmd → VisState × List VisEffect
  | .ready_to_show =>
    if s.show_when_ready then
      ({ s with ready_to_show := true, poll_pending := true },
        [.start_show_poll])
    else ({ s with ready_to_show := true }, [])
  | .show =>
    if s.ready_to_show then
      ({ s with poll_pending := true }, [.start_show_poll])
    else ({ s with show_when_ready := true }, [])
  | .hide d =>
    if s.ready_to_show then
      (s, .order_out :: if d then [.visibility_changed false] else [])
    else ({ s with show_when_ready := false }, [])
  | .poll_tick alive ready =>
    if s.poll_pending then
      if alive then
        if ready then
          ({ s with poll_pending := false, presented := true },
            [.actually_show, .visibility_changed true])
        else (s, [.reschedule_poll])
      else ({ s with poll_pending := false }, [])
    else (s, [])

/-- Run a sequence of commands from a state, accumulating effects. -/
def visRun : VisState → List VisCmd → VisState × List VisEffect
  | s, [] => (s, [])
  | s, c :: cs =>
    let r := visStep s c
    let r2 := visRun r.1 cs
    (r2.1, r.2 ++ r2.2)

/-- The number of presentation-attempt sequences (launches of
`show_when_ready`) recorded in an effect trace. -/
def countStarts (es : List VisEffect) : Nat :=
  es.count .start_show_poll

/-- Reachability invariant of the sequencer: a pending poll or a completed
presentation implies the ready cell is set. -/
def visInv (s : VisState) : Prop :=
  (s.poll_pending = true ∨ s.presented = true) → s.ready_to_show = true

/-! ## The `show_when_ready` poll body in detail -/

/-- Rust's `expr as NSInteger` on a nonnegative float expression:
truncation toward zero, modelled exactly on rationals. -/
def ratTruncToInt (q : ℚ) : Int :=
  Int.sign q.num * (q.num.natAbs / q.den : Nat)

/-- The first sublayer's `contents` object as the poll body sees it: the
result of the `className` check against `"IOSurface"`, and the pixel
width/height the body reads from it. -/
structure LayerContents where
  isIOSurface : Bool
  width : Int
  height : Int
  deriving DecidableEq, Repr

/-- What one execution of the poll body observes: whether the weak
back-reference still resolves, the first sublayer's contents when any
exist, the window's backing scale factor, and the content view's current
logical size. -/
structure PollEnv where
  alive : Bool
  contents : Option LayerContents
  scale : ℚ
  contentWidth : ℚ
  contentHeight : ℚ

inductive PollOutcome where
  | present
  | reschedule (delay : ℚ)
  | cancelled
  | panicked
  deriving DecidableEq, Repr

/-- The reschedule cadence: `Duration::from_secs_f64(1.0 / 60.0)`. -/
def pollDelay : ℚ := 1 / 60

/-- One execution of the `show_when_ready` body: nothing happens when the
weak reference is dead; contents whose class is not `IOSurface` abort the
process (the `Expected IOSurface content` panic); contents with both
pixel dimensions equal to the truncated scaled content dimensions present
the window; otherwise the body is rescheduled after `pollDelay`. -/
def show_when_ready_step (env : PollEnv) : PollOutcome :=
  if env.alive then
    match env.contents with
    | some c =>
      if !c.isIOSurface then .panicked
      else if c.width = ratTruncToInt (env.scale * env.contentWidth) ∧
          c.height = ratTruncToInt (env.scale * env.contentHeight) then
        .present
      else .reschedule pollDelay
    | none => .reschedule pollDelay
  else .cancelled

/-- Run the poll from tick `i` for at most `fuel` further reschedules:
the outcome is the first non-reschedule outcome, or the final reschedule
if the fuel runs out. -/
def pollRunFrom (envs : Nat → PollEnv) : Nat → Nat → PollOutcome
  | i, 0 => show_when_ready_step (envs i)
  | i, fuel + 1 =>
    match show_when_ready_step (envs i) with
    | .reschedule _ => pollRunFrom envs (i + 1) fuel
    | o => o

/-! ## Geometry requests: `set_geometry` and `supported_geometry` -/

/-- The sparse geometry request after `filtered_by_preference`.
`filtered_by_preference` itself is defined in the api model outside these
sources; modelled from the spec: a geometry request is a sparse set of
optionally-present fields, and the filter only selects which of them are
present, so `set_geometry` is modelled directly on the filtered sparse
field set. -/
structure WindowGeometry where
  frame_origin : Option Point := none
  frame_size : Option Size := none
  content_origin : Option Point := none
  content_size : Option Size := none
  min_frame_size : Option Size := none
  max_frame_size : Option Size := none
  min_content_size : Option Size := none
  max_content_size : Option Size := none
  deriving DecidableEq, Repr

/-- The bitset of fields actually applied, reported back to the caller. -/
structure WindowGeometryFlags where
  frame_origin : Bool := false
  frame_size : Bool := false
  content_origin : Bool := false
  content_size : Bool := false
  min_frame_size : Bool := false
  max_frame_size : Bool := false
  min_content_size : Bool := false
  max_content_size : Bool := false
  deriving DecidableEq, Repr

/-- The native setter calls issued by `set_geometry`, in order. -/
inductive GeoOp where
  | set_frame_origin (p : Point)
  | set_frame_size (s : Size)
  | set_content_position (p : Point)
  | set_content_size (s : Size)
  | set_min_frame_size (s : Size)
  | set_max_frame_size (s : Size)
  | set_min_content_size (s : Size)
  | set_max_content_size (s : Size)
  deriving DecidableEq, Repr

/-- `set_geometry`: apply each present field in source order, skipping the
two origin fields while the window is modal (position is handled by the
system for a sheet), and record each applied field in the result flags.
Each `if let Some(v) = field` of the source is rendered as
`field.toList.map`, guarded by `modal` for the origin fields. -/
def set_geometry (st : PlatformWindowState) (g : WindowGeometry) :
    WindowGeometryFlags × List GeoOp :=
  let modal := is_modal st
  ({ frame_origin := !modal && g.frame_origin.isSome
     frame_size := g.frame_size.isSome
     content_origin := !modal && g.content_origin.isSome
     content_size := g.content_size.isSome
     min_frame_size := g.min_frame_size.isSome
     max_frame_size := g.max_frame_size.isSome
     min_content_size := g.min_content_size.isSome
     max_content_size := g.max_content_size.isSome },
    (if modal then [] else g.frame_origin.toList.map .set_frame_origin) ++
      g.frame_size.toList.map .set_frame_size ++
      (if modal then [] else g.content_origin.toList.map .set_content_position) ++
      g.content_size.toList.map .set_content_size ++
      g.min_frame_size.toList.map .set_min_frame_size ++
      g.max_frame_size.toList.map .set_max_frame_size ++
      g.min_content_size.toList.map .set_min_content_size ++
      g.max_content_size.toList.map .set_max_content_size)

/-- `supported_geometry`: everything is supported, except that the two
origin fields are reported unsupported while the window is modal. -/
def supported_geometry (st : PlatformWindowState) : WindowGeometryFlags :=
  let modal := is_modal st
  { frame_origin := !modal
    frame_size := true
    content_origin := !modal
    content_size := true
    min_frame_size := true
    max_frame_size := true
    min_content_size := true
    max_content_size := true }

/-! ## Closing, the modal completion callback, and the popup scheduler -/

inductive Effect where
  | dispatch (e : NSEvent)
  | end_sheet
  | close_window
  | invoke_modal_callback (cb : Nat) (ok : Bool) (result : Int)
  | popup_present
  | invoke_on_done (ok : Bool) (item_selected : Bool)
  | schedule_now
  | panic_abort
  deriving DecidableEq, Repr

/-- `close`: detach from the sheet parent when attached, then close the
native window. -/
def close (sheetParent : Bool) (st : PlatformWindowState) :
    PlatformWindowState × List Effect :=
  (st, (if sheetParent then [.end_sheet] else []) ++ [.close_window])

/-- `close_with_result`: take the stored modal callback (leaving the cell
empty), invoke it with the successful result when one was present, then
perform an ordinary `close`. -/
def close_with_result (sheetParent : Bool) (st : PlatformWindowState)
    (result : Int) : PlatformWindowState × List Effect :=
  let callback := st.modal_close_callback
  let st1 := { st with modal_close_callback := none }
  let invoked : List Effect :=
    match callback with
    | some cb => [.invoke_modal_callback cb true result]
    | none => []
  let r := close sheetParent st1
  (r.1, invoked ++ r.2)

/-- The closure scheduled by `show_popup_menu` for the next run-loop turn:
present the popup (which tracks input until it closes, yielding whether an
item was selected), take the stored completion, and — only when the weak
back-reference still resolves — move the hover-suppression threshold to
the current system uptime and attempt a compensating mouse-move; finally
invoke the completion with the popup outcome. -/
def show_popup_menu_deferred (alive : Bool) (env : HostEnv)
    (item_selected : Bool) (st : PlatformWindowState) :
    PlatformWindowState × List Effect :=
  if alive then
    let st1 := { st with ignore_enter_leave_until := env.systemUptime }
    let r := synthetize_mouse_move_if_needed env st1
    (r.1, .popup_present :: r.2.map Effect.dispatch ++
      [.invoke_on_done true item_selected])
  else (st, [.popup_present, .invoke_on_done true item_selected])

/-- `show_popup_menu`: synthesize the swallowed mouse-up first (over the
host map's iteration order `iter`), then defer the actual presentation to
the next run-loop turn. -/
def show_popup_menu (iter : List Nat) (env : HostEnv)
    (st : PlatformWindowState) : PlatformWindowState × List Effect :=
  let r := synthetize_mouse_up_event iter env st
  (r.1, r.2.map Effect.dispatch ++ [.schedule_now])

/-- Does an effect invoke the modal completion callback? -/
def isInvokeModal : Effect → Bool
  | .invoke_modal_callback _ _ _ => true
  | _ => false

/-- Does an effect invoke the popup completion callback? -/
def isInvokeOnDone : Effect → Bool
  | .invoke_on_done _ _ => true
  | _ => false

/-! ## Concrete inputs used by witnesses and counterexamples -/

/-- A primary press recorded at location (10, 20) with event number 7. -/
def press0 : NSEvent :=
  { eventType := NSLeftMouseDown
    eventNumber := 7
    location := (10, 20)
    modifierFlags := 8
    timestamp := 5
    windowNumber := 3 }

def led0 : Ledger := ledgerInsert emptyLedger NSLeftMouseDown press0

/-- A window state holding only the recorded primary press. -/
def st0 : PlatformWindowState :=
  { modal_close_callback := none
    ready_to_show := false
    show_when_ready := false
    last_event := led0
    ignore_enter_leave_until := 0 }

/-- A host environment whose current pointer location (50, 60) differs
from the recorded press location. -/
def env0 : HostEnv :=
  { mouseLocation := (50, 60)
    currentModifierFlags := 4
    systemUptime := 100
    windowFrame := { x := 0, y := 0, w := 800, h := 600 }
    insets := { left := 0, right := 0, top := 22, bottom := 0 } }

/-- A window state with a pending modal completion callback. -/
def stModal : PlatformWindowState :=
  { modal_close_callback := some 1
    ready_to_show := false
    show_when_ready := false
    last_event := emptyLedger
    ignore_enter_leave_until := 0 }

/-- A geometry request carrying a frame origin and a content size. -/
def gReq : WindowGeometry :=
  { frame_origin := some { x := 5, y := 6 }
    content_size := some { width := 300, height := 200 } }

/-- A poll observation whose IOSurface matches the scaled content size. -/
def envShow : PollEnv :=
  { alive := true
    contents := some { isIOSurface := true, width := 200, height := 100 }
    scale := 2
    contentWidth := 100
    contentHeight := 50 }

/-- A poll observation stream with no rendered content, ever. -/
def envStall : Nat → PollEnv := fun _ =>
  { alive := true
    contents := none
    scale := 2
    contentWidth := 100
    contentHeight := 50 }

/-- A poll observation with rendered contents that are not an IOSurface. -/
def envBad : PollEnv :=
  { alive := true
    contents := some { isIOSurface := false, width := 200, height := 100 }
    scale := 2
    contentWidth := 100
    contentHeight := 50 }

/-- A hover-enter event predating the suppression threshold of `stThr`. -/
def hoverEarly : NSEvent :=
  { eventType := NSMouseEntered
    eventNumber := 9
    location := (1, 2)
    modifierFlags := 0
    timestamp := 5
    windowNumber := 3 }

/-- A hover-exit event at or after the suppression threshold of `stThr`. -/
def hoverLate : NSEvent :=
  { eventType := NSMouseExited
    eventNumber := 10
    location := (1, 2)
    modifierFlags := 0
    timestamp := 50
    windowNumber := 3 }

/-- A plain mouse-moved event (a category never suppressed). -/
def plainMove : NSEvent :=
  { eventType := NSMouseMoved
    eventNumber := 11
    location := (1, 2)
    modifierFlags := 0
    timestamp := 5
    windowNumber := 3 }

/-- A window state with suppression threshold 10 and the press recorded. -/
def stThr : PlatformWindowState :=
  { modal_close_callback := none
    ready_to_show := false
    show_when_ready := false
    last_event := led0
    ignore_enter_leave_until := 10 }

/-- First of two hover-enter events sharing a category. -/
def eA : NSEvent :=
  { eventType := NSMouseEntered
    eventNumber := 12
    location := (0, 0)
    modifierFlags := 0
    timestamp := 100
    windowNumber := 3 }

/-- Second hover-enter event, overwriting `eA` in the ledger. -/
def eB : NSEvent :=
  { eventType := NSMouseEntered
    eventNumber := 13
    location := (0, 0)
    modifierFlags := 0
    timestamp := 101
    windowNumber := 3 }

/-! ## Helper lemmas -/

theorem wfLedger_empty : wfLedger emptyLedger := by
  intro k e h
  simp [emptyLedger] at h

theorem wfLedger_insert {led : Ledger} {k : Nat} {e : NSEvent}
    (he : e.eventType = k) (h : wfLedger led) :
    wfLedger (ledgerInsert led k e) := by
  intro j x hx
  by_cases hj : j = k
  · subst hj
    simp [ledgerInsert] at hx
    subst hx
    exact he
  · simp [ledgerInsert, hj] at hx
    exact h j x hx

theorem wfLedger_led0 : wfLedger led0 :=
  wfLedger_insert rfl wfLedger_empty

/-- Every poll-body execution presents, reschedules after `pollDelay`,
cancels, or aborts on the IOSurface class assertion. -/
theorem show_when_ready_step_cases (env : PollEnv) :
    show_when_ready_step env = .present ∨
      show_when_ready_step env = .reschedule pollDelay ∨
      show_when_ready_step env = .cancelled ∨
      show_when_ready_step env = .panicked := by
  unfold show_when_ready_step
  rcases env with ⟨alive, contents, sc, cw, ch⟩
  cases alive
  · simp
  · rcases contents with _ | ⟨io, w, h⟩
    · simp
    · cases io
      · simp
      · by_cases h : w = ratTruncToInt (sc * cw) ∧ h = ratTruncToInt (sc * ch) <;>
          simp [h]

/-- The poll body presents exactly on a live window whose rendered
contents are an IOSurface matching the truncated scaled content
dimensions. -/
theorem show_when_ready_step_present_iff (env : PollEnv) :
    show_when_ready_step env = .present ↔
      env.alive = true ∧
        env.contents = some (LayerContents.mk true
          (ratTruncToInt (env.scale * env.contentWidth))
          (ratTruncToInt (env.scale * env.contentHeight))) := by
  unfold show_when_ready_step
  rcases env with ⟨alive, contents, sc, cw, ch⟩
  cases alive
  · simp
  · rcases contents with _ | ⟨io, w, h⟩
    · simp
    · cases io
      · simp
      · by_cases h1 : w = ratTruncToInt (sc * cw) <;>
          by_cases h2 : h = ratTruncToInt (sc * ch) <;>
          simp [h1, h2]

/-- The poll body cancels exactly when the weak reference is dead. -/
theorem show_when_ready_step_cancelled_iff (env : PollEnv) :
    show_when_ready_step env = .cancelled ↔ env.alive = false := by
  unfold show_when_ready_step
  rcases env with ⟨alive, contents, sc, cw, ch⟩
  cases alive
  · simp
  · rcases contents with _ | ⟨io, w, h⟩
    · simp
    · cases io
      · simp
      · by_cases h1 : w = ratTruncToInt (sc * cw) ∧ h = ratTruncToInt (sc * ch) <;>
          simp [h1]

/-- The poll body aborts exactly on a live window whose rendered contents
exist but are not an IOSurface. -/
theorem show_when_ready_step_panicked_iff (env : PollEnv) :
    show_when_ready_step env = .panicked ↔
      env.alive = true ∧ ∃ w h,
        env.contents = some (LayerContents.mk false w h) := by
  unfold show_when_ready_step
  rcases env with ⟨alive, contents, sc, cw, ch⟩
  cases alive
  · simp
  · rcases contents with _ | ⟨io, w, h⟩
    · simp
    · cases io
      · simp
      · by_cases h1 : w = ratTruncToInt (sc * cw) ∧ h = ratTruncToInt (sc * ch) <;>
          simp [h1]

/-! ## C1 — visibility sequencing -/

/-- C1: from the initial state, `show` then `ready_to_show` launches
exactly one presentation-attempt sequence; `ready_to_show` then `show`
also launches exactly one; `show` immediately followed by `hide` before
readiness launches zero. -/
theorem c1_visibility_sequencing :
    countStarts (visRun visInit [.show, .ready_to_show]).2 = 1 ∧
      countStarts (visRun visInit [.ready_to_show, .show]).2 = 1 ∧
      countStarts (visRun visInit [.show, .hide true]).2 = 0 := by
  decide

/-! ## C6 — coordinate round-trip -/

/-- C6: for every screen height, decoration inset and window frame, the
logical content origin written by `set_content_position` is read back
exactly by `get_content_position`, and the logical frame origin written by
`set_frame_origin` is read back exactly by `get_frame_origin`; in
particular the content conversion `y = screenH - (y + contentHeight)` is
its own inverse at unchanged content size and screen height. -/
theorem c6_coordinate_roundtrip (ins : Insets) (screenH : ℚ) (frame : RectQ)
    (position : Point) :
    get_content_position ins screenH
        (set_content_position ins screenH frame position) = position ∧
      get_frame_origin screenH (set_frame_origin screenH frame position) =
        position := by
  obtain ⟨px, py⟩ := position
  constructor
  · simp only [get_content_position, set_content_position,
      contentRectForFrameRect, frameRectForContentRect, Point.mk.injEq]
    constructor <;> ring_nf
  · simp only [get_frame_origin, set_frame_origin, Point.mk.injEq]
    constructor <;> ring_nf

/-! ## C2 — the show protocol poll -/

/-- C2 counterexample: on a live window whose rendered contents exist but
are not an IOSurface, the poll body neither presents nor reschedules — it
aborts on the `Expected IOSurface content` assertion, so a failing check
is not always rescheduled with no error surfaced. -/
theorem c2_poll_panic_counterexample :
    envBad.alive = true ∧
      show_when_ready_step envBad = .panicked ∧
      show_when_ready_step envBad ≠ .reschedule pollDelay ∧
      show_when_ready_step envBad ≠ .present := by
  exact ⟨rfl, rfl, by decide, by decide⟩

/-- C2 (amended): one execution of the `show_when_ready` body presents
the window exactly when the weak reference resolves and the rendered
contents are an IOSurface whose pixel dimensions equal the truncated
scaled content dimensions; it silently cancels exactly when the weak
reference is dead; it aborts with the `Expected IOSurface content` panic
exactly when contents exist but are not an IOSurface; every reschedule
uses the fixed `pollDelay` cadence of 1/60 s (≈16 ms); and as long as the
window stays alive and the check keeps failing short of that panic the
poll keeps rescheduling with no retry bound and no error outcome. -/
theorem c2_show_poll_protocol :
    (∀ env : PollEnv, show_when_ready_step env = .present ↔
      env.alive = true ∧
        env.contents = some (LayerContents.mk true
          (ratTruncToInt (env.scale * env.contentWidth))
          (ratTruncToInt (env.scale * env.contentHeight)))) ∧
      (∀ env : PollEnv, show_when_ready_step env = .cancelled ↔
        env.alive = false) ∧
      (∀ env : PollEnv, show_when_ready_step env = .panicked ↔
        env.alive = true ∧ ∃ w h, env.contents =
          some (LayerContents.mk false w h)) ∧
      (∀ (env : PollEnv) (d : ℚ), show_when_ready_step env = .reschedule d →
        d = pollDelay) ∧
      pollDelay = 1 / 60 ∧
      (∀ (envs : Nat → PollEnv) (i fuel : Nat),
        (∀ j, (envs j).alive = true ∧
          show_when_ready_step (envs j) ≠ .present ∧
          show_when_ready_step (envs j) ≠ .panicked) →
        pollRunFrom envs i fuel = .reschedule pollDelay) := by
  refine ⟨show_when_ready_step_present_iff, show_when_ready_step_cancelled_iff,
    show_when_ready_step_panicked_iff, ?_, rfl, ?_⟩
  · intro env d h
    rcases show_when_ready_step_cases env with hc | hc | hc | hc <;> rw [hc] at h
    · cases h
    · injection h with h1
      exact h1.symm
    · cases h
    · cases h
  · intro envs i fuel h
    induction fuel generalizing i with
    | zero =>
      rcases show_when_ready_step_cases (envs i) with hc | hc | hc | hc
      · exact absurd hc (h i).2.1
      · simpa [pollRunFrom] using hc
      · rw [show_when_ready_step_cancelled_iff] at hc
        rw [(h i).1] at hc
        cases hc
      · exact absurd hc (h i).2.2
    | succ fuel ih =>
      rcases show_when_ready_step_cases (envs i) with hc | hc | hc | hc
      · exact absurd hc (h i).2.1
      · simp only [pollRunFrom, hc]
        exact ih (i + 1)
      · rw [show_when_ready_step_cancelled_iff] at hc
        rw [(h i).1] at hc
        cases hc
      · exact absurd hc (h i).2.2

/-- C2 witness: the poll presents on a matching IOSurface observation,
and a forever-failing (but alive and non-panicking) observation stream
leaves it rescheduling after any number of ticks. -/
theorem c2_show_poll_protocol_witness :
    show_when_ready_step envShow = .present ∧
      pollRunFrom envStall 0 5 = .reschedule pollDelay := by
  constructor
  · refine (c2_show_poll_protocol.1 envShow).mpr ⟨rfl, ?_⟩
    have hw : envShow.scale * envShow.contentWidth = 200 := by
      norm_num [envShow]
    have hh : envShow.scale * envShow.contentHeight = 100 := by
      norm_num [envShow]
    rw [hw, hh]
    norm_num [envShow, ratTruncToInt]
    decide
  · refine c2_show_poll_protocol.2.2.2.2.2 envStall 0 5
      (fun j => ⟨rfl, ?_, ?_⟩) <;>
      simp [envStall, show_when_ready_step]

/-! ## C3 — modal geometry gating -/

/-- C3: while a modal completion callback is stored, `set_geometry`
reports a requested frame-origin or content-origin field as not applied
and issues no native call for it, while a requested content-size field (or
any other size field) in the same call is applied and reported as such;
`supported_geometry` then reports both origins unsupported and all size
fields supported; without a modal session every requested field is applied
and reported. -/
theorem c3_modal_geometry_gating (st : PlatformWindowState)
    (g : WindowGeometry) :
    (is_modal st = true →
      ((set_geometry st g).1.frame_origin = false ∧
        (set_geometry st g).1.content_origin = false ∧
        (∀ p, GeoOp.set_frame_origin p ∉ (set_geometry st g).2) ∧
        (∀ p, GeoOp.set_content_position p ∉ (set_geometry st g).2) ∧
        (set_geometry st g).1.content_size = g.content_size.isSome ∧
        (∀ s, GeoOp.set_content_size s ∈ (set_geometry st g).2 ↔
          g.content_size = some s) ∧
        supported_geometry st =
          { frame_origin := false, frame_size := true, content_origin := false,
            content_size := true, min_frame_size := true,
            max_frame_size := true, min_content_size := true,
            max_content_size := true })) ∧
    (is_modal st = false →
      ((set_geometry st g).1 =
        { frame_origin := g.frame_origin.isSome
          frame_size := g.frame_size.isSome
          content_origin := g.content_origin.isSome
          content_size := g.content_size.isSome
          min_frame_size := g.min_frame_size.isSome
          max_frame_size := g.max_frame_size.isSome
          min_content_size := g.min_content_size.isSome
          max_content_size := g.max_content_size.isSome } ∧
        (∀ p, GeoOp.set_frame_origin p ∈ (set_geometry st g).2 ↔
          g.frame_origin = some p) ∧
        (∀ s, GeoOp.set_content_size s ∈ (set_geometry st g).2 ↔
          g.content_size = some s) ∧
        supported_geometry st =
          { frame_origin := true, frame_size := true, content_origin := true,
            content_size := true, min_frame_size := true,
            max_frame_size := true, min_content_size := true,
            max_content_size := true })) ∧
    ((set_geometry st g).1.frame_size = g.frame_size.isSome ∧
      (set_geometry st g).1.min_frame_size = g.min_frame_size.isSome ∧
      (set_geometry st g).1.max_frame_size = g.max_frame_size.isSome ∧
      (set_geometry st g).1.min_content_size = g.min_content_size.isSome ∧
      (set_geometry st g).1.max_content_size = g.max_content_size.isSome) := by
  refine ⟨fun h => ?_, fun h => ?_, ?_⟩
  · refine ⟨by simp [set_geometry, h], by simp [set_geometry, h], ?_, ?_, ?_, ?_,
      by simp [supported_geometry, h]⟩
    · intro p
      simp [set_geometry, h]
    · intro p
      simp [set_geometry, h]
    · simp [set_geometry]
    · intro s
      simp [set_geometry, h]
  · refine ⟨by simp [set_geometry, h], ?_, ?_,
      by simp [supported_geometry, h]⟩
    · intro p
      simp [set_geometry, h]
    · intro s
      simp [set_geometry, h]
  · exact ⟨rfl, rfl, rfl, rfl, rfl⟩

/-- C3 witness: at a modal state with a request carrying a frame origin
and a content size, the origin is reported not applied, the size applied,
and `supported_geometry` rejects only the origins. -/
theorem c3_modal_geometry_gating_witness :
    (set_geometry stModal gReq).1.frame_origin = false ∧
      (set_geometry stModal gReq).1.content_size = true ∧
      (supported_geometry stModal).frame_origin = false ∧
      (supported_geometry stModal).content_size = true := by
  have h := (c3_modal_geometry_gating stModal gReq).1 rfl
  refine ⟨h.1, ?_, ?_, ?_⟩
  · rw [h.2.2.2.2.1]
    rfl
  · rw [h.2.2.2.2.2.2]
  · rw [h.2.2.2.2.2.2]

/-! ## C7 — `hide` semantics -/

/-- C7 counterexample: after `show`, `ready_to_show` and one failed poll
tick the window is still pending and was never presented, yet `hide` does
not merely cancel the pending show request: it orders the window out,
notifies `visibility_changed false`, and leaves the show poll pending. -/
theorem c7_hide_pending_counterexample :
    (visRun visInit [.show, .ready_to_show, .poll_tick true false]).1.presented
        = false ∧
      (visRun visInit
        [.show, .ready_to_show, .poll_tick true false]).1.poll_pending = true ∧
      visStep (visRun visInit [.show, .ready_to_show, .poll_tick true false]).1
          (.hide true) =
        ((visRun visInit [.show, .ready_to_show, .poll_tick true false]).1,
          [.order_out, .visibility_changed false]) := by
  decide

/-- C7 (amended): `hide` branches on whether readiness was declared, not
on whether the window was presented: with the ready cell unset it clears
the pending-show flag and does nothing else; with it set it orders the
window out immediately and notifies the delegate with `false` (when the
delegate is alive), even if the window was never actually presented; it
never cancels a pending show poll.  When readiness was never declared
nothing can have been presented and no poll can be pending (`visInv`). -/
theorem c7_hide_behavior :
    (∀ (s : VisState) (d : Bool),
      (s.ready_to_show = false →
        visStep s (.hide d) = ({ s with show_when_ready := false }, [])) ∧
      (s.ready_to_show = true →
        visStep s (.hide d) =
          (s, .order_out :: if d then [.visibility_changed false] else [])) ∧
      (visStep s (.hide d)).1.poll_pending = s.poll_pending) ∧
    (∀ (s : VisState) (c : VisCmd), visInv s → visInv (visStep s c).1) := by
  constructor
  · intro s d
    refine ⟨fun h => by simp [visStep, h], fun h => by simp [visStep, h], ?_⟩
    by_cases h : s.ready_to_show <;> simp [visStep, h]
  · intro s c hinv
    rcases s with ⟨rts, swr, pp, pr⟩
    rcases c with _ | _ | d | ⟨a, r⟩
    · cases rts <;> cases swr <;> simp_all [visStep, visInv]
    · cases rts <;> simp_all [visStep, visInv]
    · cases rts <;> simp_all [visStep, visInv]
    · cases rts <;> cases pp <;> cases pr <;> cases a <;> cases r <;>
        simp_all [visStep, visInv]

/-- C7 witness: with readiness undeclared `hide` only clears the request;
the sequencer invariant survives a `show` from the initial state. -/
theorem c7_hide_behavior_witness :
    visStep
        { ready_to_show := false, show_when_ready := true,
          poll_pending := false, presented := false } (.hide true) =
      ({ ready_to_show := false, show_when_ready := false,
          poll_pending := false, presented := false }, []) ∧
      visInv (visStep visInit .show).1 := by
  constructor
  · exact (c7_hide_behavior.1
      { ready_to_show := false, show_when_ready := true,
        poll_pending := false, presented := false } true).1 rfl
  · exact c7_hide_behavior.2 visInit .show (by simp [visInv, visInit])

/-! ## C9 — consume-once callbacks -/

/-- C9 counterexample: a second `close_with_result` after the modal
callback was consumed is silently ignored — its effect trace is just the
plain close, with no assertion failure and no callback invocation. -/
theorem c9_second_invocation_counterexample :
    is_modal (close_with_result false stModal 5).1 = false ∧
      (close_with_result false (close_with_result false stModal 5).1 5).2 =
        [Effect.close_window] := by
  exact ⟨rfl, rfl⟩

/-- C9 (amended): `close_with_result` consumes the stored modal callback:
afterwards `is_modal` is `false`; the callback is invoked exactly once
when present and not at all otherwise; no panic is raised on any path, so
a second `close_with_result` finds the cell empty and silently performs a
plain close with zero callback invocations. -/
theorem c9_consume_once (sheetParent : Bool) (st : PlatformWindowState)
    (v : Int) :
    is_modal (close_with_result sheetParent st v).1 = false ∧
      (close_with_result sheetParent st v).2.countP isInvokeModal =
        (if is_modal st then 1 else 0) ∧
      Effect.panic_abort ∉ (close_with_result sheetParent st v).2 ∧
      (close_with_result sheetParent
          (close_with_result sheetParent st v).1 v).2.countP isInvokeModal
        = 0 := by
  rcases st with ⟨cb, r, s, led, thr⟩
  rcases cb with _ | cbId <;> cases sheetParent <;>
    simp [close_with_result, close, is_modal, isInvokeModal]

/-! ## Event-pipeline lemmas -/

/-- `synthetize_mouse_move_if_needed` either does nothing or records and
injects one fabricated mouse-moved event. -/
theorem synth_move_cases (env : HostEnv) (st : PlatformWindowState) :
    synthetize_mouse_move_if_needed env st = (st, []) ∨
      ∃ n, synthetize_mouse_move_if_needed env st =
        ({ st with last_event :=
            ledgerInsert st.last_event NSMouseMoved (mkMouseMove env n) },
          [mkMouseMove env n]) := by
  unfold synthetize_mouse_move_if_needed
  cases hsel : rustMax (ledgerScan st.last_event pointerKeys) with
  | none => exact Or.inl rfl
  | some le =>
    dsimp only
    split_ifs with hin
    · exact Or.inr ⟨le.eventNumber, rfl⟩
    · exact Or.inl rfl

/-- The move synthesis never touches ledger entries other than the
mouse-moved one. -/
theorem synth_move_lookup (env : HostEnv) (st : PlatformWindowState)
    (k : Nat) (hk : k ≠ NSMouseMoved) :
    ((synthetize_mouse_move_if_needed env st).1).last_event k =
      st.last_event k := by
  rcases synth_move_cases env st with h | ⟨n, h⟩ <;> rw [h]
  simp [ledgerInsert, mkMouseMove, hk]

/-- The move synthesis does not move the hover-suppression threshold. -/
theorem synth_move_ignore (env : HostEnv) (st : PlatformWindowState) :
    ((synthetize_mouse_move_if_needed env st).1).ignore_enter_leave_until =
      st.ignore_enter_leave_until := by
  rcases synth_move_cases env st with h | ⟨n, h⟩ <;> rw [h]

/-- Every event the move synthesis injects is a mouse-moved event. -/
theorem synth_move_types (env : HostEnv) (st : PlatformWindowState) :
    ∀ x ∈ (synthetize_mouse_move_if_needed env st).2,
      x.eventType = NSMouseMoved := by
  rcases synth_move_cases env st with h | ⟨n, h⟩ <;> rw [h] <;>
    simp [mkMouseMove]

/-- The move synthesis preserves ledger well-formedness. -/
theorem synth_move_wf (env : HostEnv) (st : PlatformWindowState)
    (h : wfLedger st.last_event) :
    wfLedger ((synthetize_mouse_move_if_needed env st).1).last_event := by
  rcases synth_move_cases env st with hc | ⟨n, hc⟩ <;> rw [hc]
  · exact h
  · exact wfLedger_insert rfl h

/-- `sendEvent:` on a live window with an event that is not an enter/exit
event: record it and forward it. -/
theorem send_event_plain (env : HostEnv) (st : PlatformWindowState)
    (e : NSEvent)
    (h : ¬(e.eventType = NSMouseEntered ∨ e.eventType = NSMouseExited)) :
    send_event true env st e =
      ({ st with last_event := ledgerInsert st.last_event e.eventType e },
        [e]) := by
  have hc : ¬((e.eventType = NSMouseEntered ∨ e.eventType = NSMouseExited) ∧
      e.timestamp <
        ({ st with last_event := ledgerInsert st.last_event e.eventType e } :
          PlatformWindowState).ignore_enter_leave_until) :=
    fun hx => h hx.1
  simp [send_event, should_send_event, hc]

/-- `sendEvent:` on a live window with an enter/exit event predating the
threshold: record it, then run (and return) the compensating move
synthesis; the event itself is not forwarded. -/
theorem send_event_suppressed (env : HostEnv) (st : PlatformWindowState)
    (e : NSEvent)
    (ht : e.eventType = NSMouseEntered ∨ e.eventType = NSMouseExited)
    (hts : e.timestamp < st.ignore_enter_leave_until) :
    send_event true env st e =
      synthetize_mouse_move_if_needed env
        { st with last_event := ledgerInsert st.last_event e.eventType e } := by
  have hc : (e.eventType = NSMouseEntered ∨ e.eventType = NSMouseExited) ∧
      e.timestamp <
        ({ st with last_event := ledgerInsert st.last_event e.eventType e } :
          PlatformWindowState).ignore_enter_leave_until := ⟨ht, hts⟩
  simp [send_event, should_send_event, hc]

/-- After any live `sendEvent:`, the ledger holds the incoming event under
its own category. -/
theorem send_event_lookup_self (env : HostEnv) (st : PlatformWindowState)
    (e : NSEvent) :
    ((send_event true env st e).1).last_event e.eventType = some e := by
  by_cases hc : (e.eventType = NSMouseEntered ∨ e.eventType = NSMouseExited) ∧
      e.timestamp < st.ignore_enter_leave_until
  · rw [send_event_suppressed env st e hc.1 hc.2]
    have hne : e.eventType ≠ NSMouseMoved := by
      rcases hc.1 with h | h <;> simp [h, NSMouseEntered, NSMouseExited,
        NSMouseMoved]
    rw [synth_move_lookup env _ e.eventType hne]
    simp [ledgerInsert]
  · simp [send_event, should_send_event, hc, ledgerInsert]

/-- A live `sendEvent:` preserves ledger well-formedness. -/
theorem send_event_wf (env : HostEnv) (st : PlatformWindowState)
    (e : NSEvent) (h : wfLedger st.last_event) :
    wfLedger ((send_event true env st e).1).last_event := by
  have h1 : wfLedger (ledgerInsert st.last_event e.eventType e) :=
    wfLedger_insert rfl h
  by_cases hc : (e.eventType = NSMouseEntered ∨ e.eventType = NSMouseExited) ∧
      e.timestamp < st.ignore_enter_leave_until
  · rw [send_event_suppressed env st e hc.1 hc.2]
    exact synth_move_wf env _ h1
  · simp only [send_event, should_send_event, if_true]
    rw [if_neg hc]
    exact h1

/-! ## C4 — hover suppression -/

/-- C4: a live `sendEvent:` never forwards an enter/exit event whose
timestamp is strictly below the suppression threshold — instead its
outcome is exactly that of the compensating mouse-move synthesis run on
the recording state; an enter/exit event at or above the threshold is
always forwarded, as is every event of any other category. -/
theorem c4_hover_suppression (env : HostEnv) (st : PlatformWindowState)
    (e : NSEvent) :
    ((e.eventType = NSMouseEntered ∨ e.eventType = NSMouseExited) →
      e.timestamp < st.ignore_enter_leave_until →
        (e ∉ (send_event true env st e).2 ∧
          send_event true env st e =
            synthetize_mouse_move_if_needed env
              { st with last_event :=
                  ledgerInsert st.last_event e.eventType e })) ∧
      ((e.eventType = NSMouseEntered ∨ e.eventType = NSMouseExited) →
        st.ignore_enter_leave_until ≤ e.timestamp →
          (send_event true env st e).2 = [e]) ∧
      (e.eventType ≠ NSMouseEntered → e.eventType ≠ NSMouseExited →
        (send_event true env st e).2 = [e]) := by
  refine ⟨fun ht hts => ⟨?_, send_event_suppressed env st e ht hts⟩,
    fun ht hts => ?_, fun h8 h9 => ?_⟩
  · rw [send_event_suppressed env st e ht hts]
    intro hmem
    have := synth_move_types env
      { st with last_event := ledgerInsert st.last_event e.eventType e }
      e hmem
    rcases ht with h | h <;> rw [h] at this <;> cases this
  · have hc : ¬((e.eventType = NSMouseEntered ∨ e.eventType = NSMouseExited) ∧
        e.timestamp <
          ({ st with last_event := ledgerInsert st.last_event e.eventType e } :
            PlatformWindowState).ignore_enter_leave_until) :=
      fun hx => absurd hx.2 (not_lt.mpr hts)
    simp [send_event, should_send_event, hc]
  · rw [send_event_plain env st e (by simp [h8, h9])]

/-- C4 witness: with threshold 10, an early hover-enter (timestamp 5) is
not forwarded, a hover-exit at timestamp 50 is, and a mouse-move is. -/
theorem c4_hover_suppression_witness :
    hoverEarly ∉ (send_event true env0 stThr hoverEarly).2 ∧
      (send_event true env0 stThr hoverLate).2 = [hoverLate] ∧
      (send_event true env0 stThr plainMove).2 = [plainMove] := by
  refine ⟨((c4_hover_suppression env0 stThr hoverEarly).1 (Or.inl rfl) ?_).1,
    (c4_hover_suppression env0 stThr hoverLate).2.1 (Or.inr rfl) ?_,
    (c4_hover_suppression env0 stThr plainMove).2.2 (by decide) (by decide)⟩
  · show (5 : ℚ) < 10
    norm_num
  · show (10 : ℚ) ≤ 50
    norm_num

/-! ## C8 — the event ledger invariant -/

/-- C8: the ledger is keyed by category, so it holds at most one record
per category (`wfLedger` is preserved by every live `sendEvent:`); after
any live `sendEvent:` — dispatched or suppressed — looking up the event's
category yields exactly that event, so recording two events of the same
category in sequence keeps only the later one and a lookup never returns
the overwritten record. -/
theorem c8_event_ledger_overwrite :
    (∀ (env : HostEnv) (st : PlatformWindowState) (e : NSEvent),
      ((send_event true env st e).1).last_event e.eventType = some e) ∧
      (∀ (env1 env2 : HostEnv) (st : PlatformWindowState) (e1 e2 : NSEvent),
        e1.eventType = e2.eventType →
        ((send_event true env2 (send_event true env1 st e1).1 e2).1).last_event
          e2.eventType = some e2) ∧
      (∀ (env : HostEnv) (st : PlatformWindowState) (e : NSEvent),
        wfLedger st.last_event →
        wfLedger ((send_event true env st e).1).last_event) :=
  ⟨send_event_lookup_self,
    fun _ env2 st e1 e2 _ =>
      send_event_lookup_self env2 (send_event true _ st e1).1 e2,
    send_event_wf⟩

/-- C8 witness: recording `eA` then `eB` (same category) leaves the
ledger answering `eB` for that category, and well-formedness survives. -/
theorem c8_event_ledger_overwrite_witness :
    ((send_event true env0 (send_event true env0 st0 eA).1 eB).1).last_event
        eB.eventType = some eB ∧
      wfLedger ((send_event true env0 st0 eA).1).last_event :=
  ⟨c8_event_ledger_overwrite.2.1 env0 env0 st0 eA eB rfl,
    c8_event_ledger_overwrite.2.2 env0 st0 eA wfLedger_led0⟩

/-! ## C10 — popup completion -/

/-- C10: the deferred popup closure invokes the completion exactly once
with the popup outcome, whether or not the window still exists; when the
window is gone only the window-scoped cleanup is skipped (state untouched,
no threshold update, no synthesized move); when it exists the suppression
threshold is moved to the current uptime. -/
theorem c10_popup_on_done (alive : Bool) (env : HostEnv) (sel : Bool)
    (st : PlatformWindowState) :
    (show_popup_menu_deferred alive env sel st).2.countP isInvokeOnDone = 1 ∧
      Effect.invoke_on_done true sel ∈
        (show_popup_menu_deferred alive env sel st).2 ∧
      (alive = false →
        ((show_popup_menu_deferred alive env sel st).1 = st ∧
          (show_popup_menu_deferred alive env sel st).2 =
            [.popup_present, .invoke_on_done true sel])) ∧
      (alive = true →
        (show_popup_menu_deferred alive env sel st).1.ignore_enter_leave_until
          = env.systemUptime) := by
  cases alive
  · refine ⟨?_, ?_, ?_, ?_⟩
    · simp [show_popup_menu_deferred, isInvokeOnDone]
    · simp [show_popup_menu_deferred]
    · exact fun _ => ⟨rfl, rfl⟩
    · intro h
      cases h
  · refine ⟨?_, ?_, ?_, ?_⟩
    · simp [show_popup_menu_deferred, isInvokeOnDone, List.countP_cons,
        List.countP_append, List.countP_map, Function.comp]
    · simp [show_popup_menu_deferred]
    · intro h
      cases h
    · intro _
      simp only [show_popup_menu_deferred, if_true]
      rw [synth_move_ignore]

/-- C10 witness: a dead window still gets exactly the present/complete
pair of effects; a live one has its threshold moved to the uptime. -/
theorem c10_popup_on_done_witness :
    (show_popup_menu_deferred false env0 true st0).2 =
        [.popup_present, .invoke_on_done true true] ∧
      (show_popup_menu_deferred true env0 true st0).1.ignore_enter_leave_until
        = env0.systemUptime :=
  ⟨((c10_popup_on_done false env0 true st0).2.2.1 rfl).2,
    (c10_popup_on_done true env0 true st0).2.2.2 rfl⟩

/-! ## C5 — release synthesis -/

/-- The fold behind `rustMax` only ever returns its accumulator or a
list element. -/
theorem rustMax_go_mem (es : List NSEvent) :
    ∀ (acc : Option NSEvent) (x : NSEvent),
      es.foldl
        (fun acc e =>
          match acc with
          | none => some e
          | some m => if m.eventNumber ≤ e.eventNumber then some e else some m)
        acc = some x →
      acc = some x ∨ x ∈ es := by
  induction es with
  | nil =>
    intro acc x h
    exact Or.inl h
  | cons e es ih =>
    intro acc x h
    rw [List.foldl_cons] at h
    rcases ih _ x h with h1 | h1
    · rcases acc with _ | m
      · replace h1 : some e = some x := h1
        injection h1 with h1
        subst h1
        exact Or.inr (List.mem_cons_self e es)
      · replace h1 :
            (if m.eventNumber ≤ e.eventNumber then some e else some m) =
              some x := h1
        split_ifs at h1
        · injection h1 with h1
          subst h1
          exact Or.inr (List.mem_cons_self e es)
        · exact Or.inl h1
    · exact Or.inr (List.mem_cons_of_mem e h1)

/-- A selected maximum is an element of the scanned list. -/
theorem rustMax_mem {es : List NSEvent} {x : NSEvent}
    (h : rustMax es = some x) : x ∈ es := by
  rcases rustMax_go_mem es none x h with h1 | h1
  · cases h1
  · exact h1

/-- A ledger-scan element is a stored value at one of the scanned keys. -/
theorem ledgerScan_mem {led : Ledger} {iter : List Nat} {x : NSEvent}
    (h : x ∈ ledgerScan led iter) : ∃ k, k ∈ iter ∧ led k = some x := by
  simpa [ledgerScan, List.mem_filterMap] using h

/-- C5 counterexample: two failures of the claim at the single-press
state.  First, the fabricated release is located at (50, 60) — the host's
current pointer position — not at the recorded press location (10, 20),
because the location query is the class-level current-pointer query.
Second, the synthesized release copies the press's event number, so after
one synthesis the press and release tie; under the host map's admissible
value-iteration order that enumerates the release before the press, the
second call re-selects the press and injects a second release instead of
producing no event. -/
theorem c5_synthesis_counterexample :
    (synthetize_mouse_up_event [1, 2, 3, 4] env0 st0).2.map NSEvent.location =
        [(50, 60)] ∧
      press0.location = (10, 20) ∧
      ((50 : ℚ), (60 : ℚ)) ≠ ((10 : ℚ), (20 : ℚ)) ∧
      (synthetize_mouse_up_event [2, 1] env0
          (synthetize_mouse_up_event [1, 2, 3, 4] env0 st0).1).2 =
        [mkMouseUp env0 press0 NSLeftMouseUp] := by
  exact ⟨rfl, rfl, by decide, rfl⟩

/-- C5 (amended): over any value-iteration order of the host map,
`synthetize_mouse_up_event` selects the maximal stored left/right
down/up event by event number and, it being a press, injects exactly one
matching release — carrying the press's modifiers, timestamp, window and
event number, but located at the host's current pointer position — into
the window's normal event path, where it is recorded under its own
category while the press stays recorded under its; it is a no-op when the
selected event is a release or none exists.  The release ties the press's
event number, so a second call depends on the unspecified iteration
order: whenever its selection resolves to the synthesized release the
second call injects nothing. -/
theorem c5_release_synthesis (iter : List Nat) (env env2 : HostEnv)
    (st : PlatformWindowState) (hwf : wfLedger st.last_event) :
    (rustMax ((ledgerScan st.last_event iter).filter isUpDown) = none →
      synthetize_mouse_up_event iter env st = (st, [])) ∧
      (∀ e,
        rustMax ((ledgerScan st.last_event iter).filter isUpDown) = some e →
        oppositeType e.eventType = none →
        synthetize_mouse_up_event iter env st = (st, [])) ∧
      (∀ e t,
        rustMax ((ledgerScan st.last_event iter).filter isUpDown) = some e →
        oppositeType e.eventType = some t →
        ((synthetize_mouse_up_event iter env st).2 = [mkMouseUp env e t] ∧
          (mkMouseUp env e t).location = env.mouseLocation ∧
          (mkMouseUp env e t).eventNumber = e.eventNumber ∧
          ((synthetize_mouse_up_event iter env st).1).last_event t =
            some (mkMouseUp env e t) ∧
          ((synthetize_mouse_up_event iter env st).1).last_event e.eventType =
            some e ∧
          (∀ iter2,
            rustMax ((ledgerScan
                ((synthetize_mouse_up_event iter env st).1).last_event
                iter2).filter isUpDown) = some (mkMouseUp env e t) →
            synthetize_mouse_up_event iter2 env2
                (synthetize_mouse_up_event iter env st).1 =
              ((synthetize_mouse_up_event iter env st).1, [])))) := by
  refine ⟨?_, ?_, ?_⟩
  · intro h
    simp [synthetize_mouse_up_event, h]
  · intro e hsel hopp
    simp [synthetize_mouse_up_event, hsel, hopp]
  · intro e t hsel hopp
    have hcase : (e.eventType = NSLeftMouseDown ∧ t = NSLeftMouseUp) ∨
        (e.eventType = NSRightMouseDown ∧ t = NSRightMouseUp) := by
      unfold oppositeType at hopp
      split_ifs at hopp with hA hB
      · injection hopp with h
        exact Or.inl ⟨hA, h.symm⟩
      · injection hopp with h
        exact Or.inr ⟨hB, h.symm⟩
    have hne : ¬((mkMouseUp env e t).eventType = NSMouseEntered ∨
        (mkMouseUp env e t).eventType = NSMouseExited) := by
      rcases hcase with ⟨h1, h2⟩ | ⟨h1, h2⟩ <;> subst h2 <;>
        simp [mkMouseUp, NSLeftMouseUp, NSRightMouseUp, NSMouseEntered,
          NSMouseExited]
    have htne : e.eventType ≠ t := by
      rcases hcase with ⟨h1, h2⟩ | ⟨h1, h2⟩ <;> subst h2 <;> rw [h1] <;> decide
    have hmem : st.last_event e.eventType = some e := by
      have h1 : e ∈ (ledgerScan st.last_event iter).filter isUpDown :=
        rustMax_mem hsel
      have h2 : e ∈ ledgerScan st.last_event iter := List.mem_of_mem_filter h1
      obtain ⟨k, _, hk⟩ := ledgerScan_mem h2
      have hkt := hwf k e hk
      rw [← hkt] at hk
      exact hk
    have hstep : synthetize_mouse_up_event iter env st =
        ({ st with last_event :=
            ledgerInsert st.last_event t (mkMouseUp env e t) },
          [mkMouseUp env e t]) := by
      simp only [synthetize_mouse_up_event, hsel, hopp]
      rw [send_event_plain env st (mkMouseUp env e t) hne]
      rfl
    refine ⟨by rw [hstep], rfl, rfl, ?_, ?_, ?_⟩
    · rw [hstep]
      simp [ledgerInsert]
    · rw [hstep]
      simp [ledgerInsert, htne, hmem]
    · intro iter2 hsel2
      rw [hstep] at hsel2 ⊢
      dsimp only at hsel2 ⊢
      simp only [synthetize_mouse_up_event, hsel2]
      rcases hcase with ⟨h1, h2⟩ | ⟨h1, h2⟩ <;> subst h2 <;>
        simp [oppositeType, mkMouseUp, NSLeftMouseUp, NSRightMouseUp,
          NSLeftMouseDown, NSRightMouseDown]

/-- C5 witness: from the single recorded press, one synthesis (under the
ascending iteration order) injects exactly the matching release, and a
second call whose iteration order resolves the tie to the release injects
nothing. -/
theorem c5_release_synthesis_witness :
    (synthetize_mouse_up_event [1, 2, 3, 4] env0 st0).2 =
        [mkMouseUp env0 press0 NSLeftMouseUp] ∧
      synthetize_mouse_up_event [1, 2] env0
          (synthetize_mouse_up_event [1, 2, 3, 4] env0 st0).1 =
        ((synthetize_mouse_up_event [1, 2, 3, 4] env0 st0).1, []) := by
  have h := (c5_release_synthesis [1, 2, 3, 4] env0 env0 st0
    wfLedger_led0).2.2 press0 NSLeftMouseUp rfl rfl
  exact ⟨h.1, h.2.2.2.2.2 [1, 2] rfl⟩

end NativeShell
